import Mathlib

/-!
Verification of the conversational query-translation pipeline of
`chat-with-mysql` (`src/app.py`), shallowly embedded in Lean 4.

The embedding follows the source closely:

* `Turn` models a `HumanMessage` / `AIMessage` of the chat history.
* `DB` models the connected `SQLDatabase` object: `get_table_info` (the
  Schema Provider) and `run` (the Query Executor), both of which may fail.
* `Gen` models the language-model backend (`ChatOpenAI`), a single-shot
  text-completion call `complete` that may fail.
* `sql_chain` models `get_sql_chain(db)` applied to an input dict: it
  fetches the schema, builds the SQL-generation prompt from the template
  literal of `app.py`, and calls the completion backend.
* `get_response` models `get_response(user_query, db, chat_history)`:
  first assign computes `query` via `sql_chain`; the second assign
  re-fetches the schema and runs the query; then the answer prompt is
  built and the completion backend is called again.
* `chat_handler` models the top-level Streamlit block (app.py lines
  171-183): the guard `user_query is not None and user_query.strip() != ""`,
  the append of the `HumanMessage` BEFORE `get_response` is called, the
  lookup of `st.session_state.db`, and the append of the `AIMessage` after
  a successful call.

Failures are propagated exceptions: any step that raises aborts the rest
of the cycle, exactly as an uncaught Python exception would (there is no
`try`/`except` anywhere in `app.py`). Session state survives the abort,
as Streamlit session state does.

Every run also produces a trace of externally observable events
(`Event`): schema fetches, completion calls (with the exact prompt text
handed over) and database executions. Ordering claims are proved as
facts about this trace.
-/

namespace ChatMySQL

/-- Role of a chat message: `HumanMessage` (user) or `AIMessage` (assistant). -/
inductive Role where
  | user
  | assistant
deriving DecidableEq, Repr

/-- One chat message: a `HumanMessage` / `AIMessage` with its `content` string. -/
structure Turn where
  role : Role
  text : String
deriving DecidableEq, Repr

/-- Python `str.strip()` restricted to the whitespace characters Lean knows:
drop leading and trailing whitespace characters. -/
def pyStrip (s : String) : String :=
  ⟨((s.data.dropWhile Char.isWhitespace).reverse.dropWhile Char.isWhitespace).reverse⟩

/-- Exceptions that the external collaborators can raise.
`noConnection` models the `AttributeError` Streamlit raises when
`st.session_state.db` is accessed with no connection established — the
failure the spec's taxonomy labels `ConnectionError`.  `generationFailure`
models a failed LLM call, `executionError` a failed `db.run`. -/
inductive Err where
  | noConnection
  | generationFailure (msg : String)
  | executionError (msg : String)
deriving DecidableEq, Repr

/-- The connected `SQLDatabase` object: Schema Provider + Query Executor. -/
structure DB where
  get_table_info : Except Err String
  run : String → Except Err String

/-- The language-model backend (`ChatOpenAI`): one-shot text completion. -/
structure Gen where
  complete : String → Except Err String

/-- Externally observable side effects of one run. `genCall` records the
exact prompt text handed to the completion backend. -/
inductive Event where
  | fetchSchema
  | genCall (prompt : String)
  | dbRun (sql : String)
deriving DecidableEq, Repr

/-- Whether an event is a completion (Generation Service) call. -/
def Event.isGen : Event → Bool
  | .genCall _ => true
  | _ => false

/-- Whether an event is a database execution. -/
def Event.isRun : Event → Bool
  | .dbRun _ => true
  | _ => false

/-- Whether an event is a schema fetch. -/
def Event.isFetch : Event → Bool
  | .fetchSchema => true
  | _ => false

/-- Number of Generation Service calls in a trace. -/
def countGenCalls (tr : List Event) : Nat := (tr.filter Event.isGen).length

/-- Number of Query Executor invocations in a trace. -/
def countDbRuns (tr : List Event) : Nat := (tr.filter Event.isRun).length

/-- Number of Schema Provider invocations in a trace. -/
def countFetches (tr : List Event) : Nat := (tr.filter Event.isFetch).length

/-- The prompt texts of the Generation Service calls of a trace, in order. -/
def genPrompts (tr : List Event) : List String :=
  tr.filterMap (fun ev => match ev with | Event.genCall p => some p | _ => none)

/-- Rendering of one message when the Python list `chat_history` is
substituted into a prompt template (its `repr`, with quoting elided). -/
def pyShow (t : Turn) : String :=
  match t.role with
  | Role.user => "HumanMessage(content=" ++ t.text ++ ")"
  | Role.assistant => "AIMessage(content=" ++ t.text ++ ")"

/-- Rendering of the whole `chat_history` list substituted for
`chat_history` in the templates. -/
def renderHistory (h : List Turn) : String :=
  "[" ++ String.intercalate ", " (h.map pyShow) ++ "]"

/-- The SQL-generation template of `get_sql_chain` before the `schema` hole. -/
def sql_head : String :=
  "\n    You are a data analyst at a company. You are interacting with a user who is asking you questions about the company\x27s database.\n    Based on the table schema below, write a SQL query that would answer the user\x27s question. Take the conversation history into account.\n\n    <SCHEMA>"

/-- The SQL-generation template between the `schema` and `chat_history` holes. -/
def sql_mid1 : String := "</SCHEMA>\n\n    Conversation History: "

/-- The SQL-generation template between the `chat_history` and `question`
holes: the output-discipline instruction and the two worked examples. -/
def sql_mid2 : String :=
  "\n\n    Write only the SQL query and nothing else. Do not wrap the SQL query in any other text, not even backticks.\n\n    For example:\n    Question: which 3 artists have the most tracks?\n    SQL Query: SELECT ArtistId, COUNT(*) as track_count FROM Track GROUP BY ArtistId ORDER BY track_count DESC LIMIT 3;\n    Question: Name 10 artists\n    SQL Query: SELECT Name FROM Artist LIMIT 10;\n\n    Your turn:\n\n    Question: "

/-- The SQL-generation template after the `question` hole. -/
def sql_tail : String := "\n    SQL Query:\n    "

/-- The instruction text the SQL-generation prompt hands to the completion
backend: the template of `get_sql_chain` with `schema`, `chat_history`
and `question` substituted. -/
def sql_prompt (schema : String) (history : List Turn) (question : String) : String :=
  sql_head ++ schema ++ sql_mid1 ++ renderHistory history ++ sql_mid2 ++ question ++ sql_tail

/-- The answer-synthesis template of `get_response` before the `schema` hole. -/
def ans_head : String :=
  "\n        You are a data analyst at a company. You are interacting with a user who is asking you questions about the company\x27s database.\n        Based on the table schema below, question, sql query, and sql response, write a natural language reponse.\n        <SCHEMA>"

/-- The answer-synthesis template between `schema` and `chat_history`. -/
def ans_mid1 : String := "</SCHEMA>\n\n        Conversation History: "

/-- The answer-synthesis template between `chat_history` and `query`. -/
def ans_mid2 : String := "\n        SQL Query: <SQL>"

/-- The answer-synthesis template between `query` and `question`. -/
def ans_mid3 : String := "</SQL>\n        Question: "

/-- The answer-synthesis template between `question` and `response`. -/
def ans_mid4 : String := "\n        SQL Response: "

/-- The answer-synthesis template after the `response` hole. -/
def ans_tail : String := "\n\n    "

/-- The instruction text the answer-synthesis step hands to the completion
backend: the second template of `get_response` with all five holes filled. -/
def answer_prompt (schema : String) (history : List Turn) (query : String)
    (question : String) (response : String) : String :=
  ans_head ++ schema ++ ans_mid1 ++ renderHistory history ++ ans_mid2 ++ query ++
    ans_mid3 ++ question ++ ans_mid4 ++ response ++ ans_tail

/-- `get_sql_chain(db)` invoked on `{question, chat_history}`:
`RunnablePassthrough.assign(schema=get_schema) | prompt | llm | StrOutputParser()`.
Fetches the schema (emitting `fetchSchema`), builds the prompt, calls the
completion backend (emitting `genCall`), and yields the generated SQL.
A failing step raises, aborting the rest. -/
def sql_chain (db : DB) (gen : Gen) (question : String) (chat_history : List Turn) :
    Except Err String × List Event :=
  match db.get_table_info with
  | Except.error e => (Except.error e, [Event.fetchSchema])
  | Except.ok schema =>
      match gen.complete (sql_prompt schema chat_history question) with
      | Except.error e =>
          (Except.error e,
           [Event.fetchSchema, Event.genCall (sql_prompt schema chat_history question)])
      | Except.ok sqlText =>
          (Except.ok sqlText,
           [Event.fetchSchema, Event.genCall (sql_prompt schema chat_history question)])

/-- `get_response(user_query, db, chat_history)`: the full cycle.
First assign computes `query` through `sql_chain`; the second assign
re-fetches the schema (`schema=lambda _: db.get_table_info()`) and runs
the generated query (`response=lambda _: db.run(_["query"])`); then the
answer prompt is built and the completion backend is called again.  The
two members of the second assign are serialized here in dict order;
no claim depends on their relative order.  Any raising step aborts the
remaining steps, as the uncaught Python exception would. -/
def get_response (user_query : String) (db : DB) (gen : Gen) (chat_history : List Turn) :
    Except Err String × List Event :=
  match sql_chain db gen user_query chat_history with
  | (Except.error e, tr) => (Except.error e, tr)
  | (Except.ok query, tr) =>
      match db.get_table_info with
      | Except.error e => (Except.error e, tr ++ [Event.fetchSchema])
      | Except.ok schema =>
          match db.run query with
          | Except.error e => (Except.error e, tr ++ [Event.fetchSchema, Event.dbRun query])
          | Except.ok response =>
              match gen.complete (answer_prompt schema chat_history query user_query response) with
              | Except.error e =>
                  (Except.error e,
                   tr ++ [Event.fetchSchema, Event.dbRun query,
                          Event.genCall (answer_prompt schema chat_history query user_query response)])
              | Except.ok answer =>
                  (Except.ok answer,
                   tr ++ [Event.fetchSchema, Event.dbRun query,
                          Event.genCall (answer_prompt schema chat_history query user_query response)])

/-- The Streamlit session state the top-level block reads and writes:
the chat history and the optional database connection (`st.session_state.db`,
absent until the Connect button succeeds). -/
structure SessionState where
  chat_history : List Turn
  db : Option DB

/-- The session state right after the seed greeting is installed and
before any connection is made. -/
def initial_state : SessionState :=
  ⟨[⟨Role.assistant, "Hello! I am a SQL assistant. Ask me anything about your Database."⟩], none⟩

/-- The top-level chat block (app.py lines 171-183) for one submitted
input.  Returns the new session state, the outcome (`none` when the guard
rejected the input and no cycle ran), and the event trace.
Faithfully to the source: the `HumanMessage` is appended BEFORE
`st.session_state.db` is read and before `get_response` runs; the
`AIMessage` is appended only after `get_response` returns; a raise leaves
the session state as it was at the raising point. -/
def chat_handler (user_query : Option String) (gen : Gen) (st : SessionState) :
    SessionState × Option (Except Err String) × List Event :=
  match user_query with
  | none => (st, none, [])
  | some q =>
      if pyStrip q = "" then (st, none, [])
      else
        match st.db with
        | none =>
            (⟨st.chat_history ++ [⟨Role.user, q⟩], st.db⟩,
             some (Except.error Err.noConnection), [])
        | some db =>
            match get_response q db gen (st.chat_history ++ [⟨Role.user, q⟩]) with
            | (Except.ok answer, tr) =>
                (⟨st.chat_history ++ [⟨Role.user, q⟩] ++ [⟨Role.assistant, answer⟩], st.db⟩,
                 some (Except.ok answer), tr)
            | (Except.error e, tr) =>
                (⟨st.chat_history ++ [⟨Role.user, q⟩], st.db⟩, some (Except.error e), tr)

/-- The turns a cycle outcome contributes after the User turn: one
Assistant turn on success, nothing on failure. -/
def answerTurns : Option (Except Err String) → List Turn
  | some (Except.ok a) => [⟨Role.assistant, a⟩]
  | _ => []

/-! Concrete stub collaborators used by witnesses and counterexamples. -/

/-- A database stub whose schema fetch and query execution both succeed. -/
def dbOk : DB := ⟨Except.ok "SCHEMA", fun _ => Except.ok "RESULT"⟩

/-- A database stub whose schema fetch succeeds and whose query execution
raises an execution error. -/
def dbBadQuery : DB :=
  ⟨Except.ok "SCHEMA", fun _ => Except.error (Err.executionError "unknown column Foo")⟩

/-- A completion backend stub that always succeeds with a fixed text. -/
def genOk : Gen := ⟨fun _ => Except.ok "OUT"⟩

/-- A completion backend stub that always fails (service unreachable). -/
def genDown : Gen := ⟨fun _ => Except.error (Err.generationFailure "service unreachable")⟩

/-- Session state with the seed greeting and a live connection to `dbOk`. -/
def stConnected : SessionState := ⟨initial_state.chat_history, some dbOk⟩

/-- Session state with the seed greeting and a connection whose query
execution raises. -/
def stBadQuery : SessionState := ⟨initial_state.chat_history, some dbBadQuery⟩

/-! Helper lemmas shared by several claim proofs. -/

/-- The trace of `sql_chain` always starts with a schema fetch. -/
theorem sql_chain_trace_cons (db : DB) (gen : Gen) (q : String) (h : List Turn) :
    ∃ rest, (sql_chain db gen q h).2 = Event.fetchSchema :: rest := by
  unfold sql_chain
  split
  · exact ⟨[], rfl⟩
  · split
    · exact ⟨_, rfl⟩
    · exact ⟨_, rfl⟩

/-- The trace of `get_response` extends the trace of its `sql_chain` stage. -/
theorem get_response_trace_shape (q : String) (db : DB) (gen : Gen) (h : List Turn) :
    ∃ rest, (get_response q db gen h).2 = (sql_chain db gen q h).2 ++ rest := by
  unfold get_response
  split
  next e tr heq => exact ⟨[], by rw [heq]; simp⟩
  next query tr heq =>
      split
      · exact ⟨_, by rw [heq]⟩
      · split
        · exact ⟨_, by rw [heq]⟩
        · split
          · exact ⟨_, by rw [heq]⟩
          · exact ⟨_, by rw [heq]⟩

/-- Every run of `get_response` invokes the Schema Provider at least once. -/
theorem countFetches_get_response (q : String) (db : DB) (gen : Gen) (h : List Turn) :
    1 ≤ countFetches (get_response q db gen h).2 := by
  obtain ⟨r1, hr1⟩ := get_response_trace_shape q db gen h
  obtain ⟨r2, hr2⟩ := sql_chain_trace_cons db gen q h
  rw [hr1, hr2]
  simp [countFetches, Event.isFetch, List.filter_append]

/-- The handler never changes the bound connection. -/
theorem chat_handler_db_eq (q : Option String) (gen : Gen) (st : SessionState) :
    (chat_handler q gen st).1.db = st.db := by
  unfold chat_handler
  cases q with
  | none => rfl
  | some s =>
      by_cases hs : pyStrip s = ""
      · simp [hs]
      · simp only [hs, if_false]
        cases hdb : st.db with
        | none => rfl
        | some db =>
            rcases hgr : get_response s db gen (st.chat_history ++ [⟨Role.user, s⟩]) with ⟨res, tr⟩
            cases res <;> simp [hgr, hdb]

/-- A non-blank question against a bound connection invokes the Schema
Provider at least once within that very call. -/
theorem countFetches_handler (q : String) (gen : Gen) (st : SessionState) (db : DB)
    (hdb : st.db = some db) (hq : ¬ pyStrip q = "") :
    1 ≤ countFetches (chat_handler (some q) gen st).2.2 := by
  simp only [chat_handler, hq, if_false, hdb]
  have hc := countFetches_get_response q db gen (st.chat_history ++ [⟨Role.user, q⟩])
  rcases hgr : get_response q db gen (st.chat_history ++ [⟨Role.user, q⟩]) with ⟨res, tr⟩
  rw [hgr] at hc
  cases res <;> (rw [hgr]; exact hc)

/-- Substring containment: `sub` occurs contiguously inside `s`. -/
def containsStr (s sub : String) : Prop := sub.data <:+: s.data

/-- An infix of `l` is an infix of `l ++ r`. -/
theorem infix_append_left {α : Type} {x l : List α} (r : List α) (hx : x <:+: l) :
    x <:+: l ++ r := by
  obtain ⟨s, t, rfl⟩ := hx
  exact ⟨s, t ++ r, by simp⟩

/-- An infix of `r` is an infix of `l ++ r`. -/
theorem infix_append_right {α : Type} (l : List α) {x r : List α} (hx : x <:+: r) :
    x <:+: l ++ r := by
  obtain ⟨s, t, rfl⟩ := hx
  exact ⟨l ++ s, t, by simp⟩

/-- The fixed role framing shared by both templates: the model is a data
analyst answering questions about the company database whose schema
follows. -/
def role_framing : String :=
  "You are a data analyst at a company. You are interacting with a user who is asking you questions about the company\x27s database."

/-- The first fixed worked example of the SQL-generation template,
demonstrating bare SQL output. -/
def example1 : String :=
  "Question: which 3 artists have the most tracks?\n    SQL Query: SELECT ArtistId, COUNT(*) as track_count FROM Track GROUP BY ArtistId ORDER BY track_count DESC LIMIT 3;"

/-- The second fixed worked example of the SQL-generation template. -/
def example2 : String :=
  "Question: Name 10 artists\n    SQL Query: SELECT Name FROM Artist LIMIT 10;"

/-- The output-discipline instruction: only the SQL query, no fencing. -/
def only_sql_instruction : String :=
  "Write only the SQL query and nothing else. Do not wrap the SQL query in any other text, not even backticks."

/-! Claim theorems. -/

/-- Claim C1, counterexample: the claim says a failed cycle leaves the
history length unchanged.  On the code it does not: the User turn is
appended before the pipeline runs, so a cycle that fails (here: the
generation backend is down) still grows the history from 1 to 2. -/
theorem history_atomicity_cex :
    (chat_handler (some "hi") genDown stConnected).2.1 =
        some (Except.error (Err.generationFailure "service unreachable")) ∧
    stConnected.chat_history.length = 1 ∧
    (chat_handler (some "hi") genDown stConnected).1.chat_history.length = 2 :=
  ⟨rfl, rfl, rfl⟩

/-- Claim C1 (amended): for every processed (non-blank) input, the history
after the call equals the old history, plus the User turn carrying the
question, plus — only when the cycle succeeded — the Assistant turn
carrying the answer.  So a successful call appends exactly 2 turns (User
then Assistant, in that order), while a failed cycle leaves the history
grown by exactly 1 (the User turn appended before the pipeline ran). -/
theorem history_append_per_cycle (q : String) (gen : Gen) (st : SessionState)
    (hq : ¬ pyStrip q = "") :
    (chat_handler (some q) gen st).1.chat_history =
      st.chat_history ++ [⟨Role.user, q⟩] ++
        answerTurns (chat_handler (some q) gen st).2.1 := by
  simp only [chat_handler, hq, if_false]
  cases hdb : st.db with
  | none => simp [answerTurns]
  | some db =>
      rcases hgr : get_response q db gen (st.chat_history ++ [⟨Role.user, q⟩]) with ⟨res, tr⟩
      cases res with
      | ok a => simp [hgr, answerTurns]
      | error e => simp [hgr, answerTurns]

/-- Witness for `history_append_per_cycle` at a concrete successful call. -/
theorem history_append_per_cycle_witness :
    ¬ pyStrip "Name 10 artists" = "" ∧
    (chat_handler (some "Name 10 artists") genOk stConnected).1.chat_history =
      stConnected.chat_history ++ [⟨Role.user, "Name 10 artists"⟩] ++
        answerTurns (chat_handler (some "Name 10 artists") genOk stConnected).2.1 :=
  ⟨by decide, history_append_per_cycle "Name 10 artists" genOk stConnected (by decide)⟩

/-- Claim C8: with no database connection bound in the session state, a
non-blank question makes the handler fail with the no-connection error
(`st.session_state.db` lookup raises) and the trace contains no
Generation Service call at all. -/
theorem no_connection_before_generation (q : String) (gen : Gen) (st : SessionState)
    (hq : ¬ pyStrip q = "") (hdb : st.db = none) :
    (chat_handler (some q) gen st).2.1 = some (Except.error Err.noConnection) ∧
    countGenCalls (chat_handler (some q) gen st).2.2 = 0 := by
  simp [chat_handler, hq, hdb, countGenCalls]

/-- Witness for `no_connection_before_generation` on the initial session
state, which has no connection. -/
theorem no_connection_before_generation_witness :
    ¬ pyStrip "hi" = "" ∧ initial_state.db = none ∧
    (chat_handler (some "hi") genOk initial_state).2.1 =
        some (Except.error Err.noConnection) ∧
    countGenCalls (chat_handler (some "hi") genOk initial_state).2.2 = 0 :=
  ⟨by decide, rfl, no_connection_before_generation "hi" genOk initial_state (by decide) rfl⟩

/-- Claim C9: an absent, empty, or whitespace-only input is rejected by
the guard: no cycle runs, the session state (hence the history) is
unchanged, and the trace is empty — neither the Generation Service nor
the database is invoked. -/
theorem blank_input_no_cycle (q : Option String) (gen : Gen) (st : SessionState)
    (hq : q = none ∨ ∃ s, q = some s ∧ pyStrip s = "") :
    chat_handler q gen st = (st, none, []) := by
  rcases hq with rfl | ⟨s, rfl, hs⟩
  · rfl
  · simp [chat_handler, hs]

/-- Witness for `blank_input_no_cycle` on a whitespace-only input. -/
theorem blank_input_no_cycle_witness :
    pyStrip "  \n " = "" ∧
    chat_handler (some "  \n ") genOk stConnected = (stConnected, none, []) :=
  ⟨by decide,
   blank_input_no_cycle (some "  \n ") genOk stConnected (Or.inr ⟨_, rfl, by decide⟩)⟩

/-- Claim C2, counterexample: the claim says that when the Query Executor
fails, the error text is handed to the Answer Synthesizer, which is still
invoked, and the cycle completes.  On the code `db.run` is not guarded by
any `try`/`except`: at a concrete failing query the cycle result is the
propagated execution error (it does not complete), and only one
Generation Service call (the SQL-generation one) ever happens — the
synthesizer is never invoked. -/
theorem execution_error_recovery_cex :
    (get_response "q" dbBadQuery genOk initial_state.chat_history).1 =
        Except.error (Err.executionError "unknown column Foo") ∧
    countGenCalls (get_response "q" dbBadQuery genOk initial_state.chat_history).2 = 1 :=
  ⟨rfl, by decide⟩

/-- Claim C2 (amended): for every cycle in which the Query Executor fails
on the generated SQL, the execution error propagates uncaught: the cycle
aborts with exactly that error, and the Answer Synthesizer is never
invoked — the trace holds exactly one Generation Service call, the
SQL-generation one. -/
theorem execution_error_propagates (q : String) (db : DB) (gen : Gen) (h : List Turn)
    (schema sqlText : String) (e : Err)
    (hs : db.get_table_info = Except.ok schema)
    (hg : gen.complete (sql_prompt schema h q) = Except.ok sqlText)
    (hr : db.run sqlText = Except.error e) :
    (get_response q db gen h).1 = Except.error e ∧
    countGenCalls (get_response q db gen h).2 = 1 := by
  simp [get_response, sql_chain, hs, hg, hr, countGenCalls, Event.isGen]

/-- Witness for `execution_error_propagates` at a concrete failing query. -/
theorem execution_error_propagates_witness :
    dbBadQuery.get_table_info = Except.ok "SCHEMA" ∧
    genOk.complete (sql_prompt "SCHEMA" [] "q") = Except.ok "OUT" ∧
    dbBadQuery.run "OUT" = Except.error (Err.executionError "unknown column Foo") ∧
    (get_response "q" dbBadQuery genOk []).1 =
        Except.error (Err.executionError "unknown column Foo") ∧
    countGenCalls (get_response "q" dbBadQuery genOk []).2 = 1 :=
  ⟨rfl, rfl, rfl,
   execution_error_propagates "q" dbBadQuery genOk [] "SCHEMA" "OUT" _ rfl rfl rfl⟩

/-- Claim C3: if the Generation Service call inside the SQL Generator
fails, the cycle aborts with that failure and the Query Executor is never
invoked — the trace holds no database execution at all. -/
theorem generation_failure_skips_executor (q : String) (db : DB) (gen : Gen)
    (h : List Turn) (schema : String) (e : Err)
    (hs : db.get_table_info = Except.ok schema)
    (hg : gen.complete (sql_prompt schema h q) = Except.error e) :
    (get_response q db gen h).1 = Except.error e ∧
    countDbRuns (get_response q db gen h).2 = 0 := by
  simp [get_response, sql_chain, hs, hg, countDbRuns, Event.isRun]

/-- Witness for `generation_failure_skips_executor` with an unreachable
generation backend. -/
theorem generation_failure_skips_executor_witness :
    dbOk.get_table_info = Except.ok "SCHEMA" ∧
    genDown.complete (sql_prompt "SCHEMA" [] "q") =
        Except.error (Err.generationFailure "service unreachable") ∧
    (get_response "q" dbOk genDown []).1 =
        Except.error (Err.generationFailure "service unreachable") ∧
    countDbRuns (get_response "q" dbOk genDown []).2 = 0 :=
  ⟨rfl, rfl, generation_failure_skips_executor "q" dbOk genDown [] "SCHEMA" _ rfl rfl⟩

/-- Claim C4: on a successful cycle the trace is exactly — in this
order — a schema fetch, the SQL-generation call on the prompt built from
that schema, a schema fetch for the synthesis stage, the execution of
exactly the generated query, and the synthesis call on the prompt built
from the execution result: each step strictly follows the step whose
output it consumes. -/
theorem pipeline_strict_sequence (q : String) (db : DB) (gen : Gen) (h : List Turn)
    (schema sqlText res ans : String)
    (hs : db.get_table_info = Except.ok schema)
    (hg : gen.complete (sql_prompt schema h q) = Except.ok sqlText)
    (hr : db.run sqlText = Except.ok res)
    (ha : gen.complete (answer_prompt schema h sqlText q res) = Except.ok ans) :
    get_response q db gen h =
      (Except.ok ans,
       [Event.fetchSchema, Event.genCall (sql_prompt schema h q),
        Event.fetchSchema, Event.dbRun sqlText,
        Event.genCall (answer_prompt schema h sqlText q res)]) := by
  simp [get_response, sql_chain, hs, hg, hr, ha]

/-- Witness for `pipeline_strict_sequence` on a concrete successful cycle. -/
theorem pipeline_strict_sequence_witness :
    dbOk.get_table_info = Except.ok "SCHEMA" ∧
    genOk.complete (sql_prompt "SCHEMA" [] "q") = Except.ok "OUT" ∧
    dbOk.run "OUT" = Except.ok "RESULT" ∧
    genOk.complete (answer_prompt "SCHEMA" [] "OUT" "q" "RESULT") = Except.ok "OUT" ∧
    get_response "q" dbOk genOk [] =
      (Except.ok "OUT",
       [Event.fetchSchema, Event.genCall (sql_prompt "SCHEMA" [] "q"),
        Event.fetchSchema, Event.dbRun "OUT",
        Event.genCall (answer_prompt "SCHEMA" [] "OUT" "q" "RESULT")]) :=
  ⟨rfl, rfl, rfl, rfl,
   pipeline_strict_sequence "q" dbOk genOk [] "SCHEMA" "OUT" "RESULT" "OUT" rfl rfl rfl rfl⟩

/-- Claim C5: the schema is re-fetched on every call.  For two consecutive
non-blank questions against a bound connection, each of the two calls
produces its own trace containing at least one Schema Provider
invocation; the session state carries no schema field at all, so no
schema text can survive from one turn to the next. -/
theorem schema_refetched_every_call (q1 q2 : String) (gen : Gen) (st : SessionState)
    (db : DB) (hdb : st.db = some db)
    (h1 : ¬ pyStrip q1 = "") (h2 : ¬ pyStrip q2 = "") :
    1 ≤ countFetches (chat_handler (some q1) gen st).2.2 ∧
    1 ≤ countFetches (chat_handler (some q2) gen (chat_handler (some q1) gen st).1).2.2 := by
  refine ⟨countFetches_handler q1 gen st db hdb h1, ?_⟩
  refine countFetches_handler q2 gen _ db ?_ h2
  rw [chat_handler_db_eq]
  exact hdb

/-- Witness for `schema_refetched_every_call` on two concrete turns. -/
theorem schema_refetched_every_call_witness :
    ¬ pyStrip "first" = "" ∧ ¬ pyStrip "second" = "" ∧
    stConnected.db = some dbOk ∧
    (1 ≤ countFetches (chat_handler (some "first") genOk stConnected).2.2 ∧
     1 ≤ countFetches
          (chat_handler (some "second") genOk
            (chat_handler (some "first") genOk stConnected).1).2.2) :=
  ⟨by decide, by decide, rfl,
   schema_refetched_every_call "first" "second" genOk stConnected dbOk rfl
     (by decide) (by decide)⟩

/-- Claim C6: prompt construction is deterministic.  The instruction texts
handed to the Generation Service by the SQL-generation stage depend only
on the question, the history and the schema text: two runs against
possibly different connections and different generation backends, but
with the same schema text, the same history and the same question, hand
over byte-identical instruction text. -/
theorem prompt_construction_deterministic (db db' : DB) (gen gen' : Gen)
    (h : List Turn) (q : String)
    (hs : db.get_table_info = db'.get_table_info) :
    genPrompts (sql_chain db gen q h).2 = genPrompts (sql_chain db' gen' q h).2 := by
  cases hgi : db'.get_table_info with
  | error e => simp [sql_chain, hs, hgi]
  | ok schema =>
      cases hc : gen.complete (sql_prompt schema h q) <;>
        cases hc' : gen'.complete (sql_prompt schema h q) <;>
          simp [sql_chain, hs, hgi, hc, hc']

/-- Witness for `prompt_construction_deterministic`: two different
connections with the same schema text and two different backends. -/
theorem prompt_construction_deterministic_witness :
    dbOk.get_table_info = dbBadQuery.get_table_info ∧
    genPrompts (sql_chain dbOk genOk "q" initial_state.chat_history).2 =
      genPrompts (sql_chain dbBadQuery genDown "q" initial_state.chat_history).2 :=
  ⟨rfl,
   prompt_construction_deterministic dbOk dbBadQuery genOk genDown
     initial_state.chat_history "q" rfl⟩

/-- Claim C10: a processed question is appended to the history as a User
turn before the pipeline is invoked: the handler's whole event trace is
the trace of `get_response` run on the extended history (so both
generation stages see that history), and the extended history carries the
current question as its final turn. -/
theorem user_turn_precedes_pipeline (q : String) (gen : Gen) (st : SessionState)
    (db : DB) (hq : ¬ pyStrip q = "") (hdb : st.db = some db) :
    (chat_handler (some q) gen st).2.2 =
      (get_response q db gen (st.chat_history ++ [Turn.mk Role.user q])).2 ∧
    (st.chat_history ++ [Turn.mk Role.user q]).getLast? = some (Turn.mk Role.user q) := by
  constructor
  · simp only [chat_handler, hq, if_false, hdb]
    rcases hgr : get_response q db gen (st.chat_history ++ [Turn.mk Role.user q]) with ⟨res, tr⟩
    cases res <;> simp [hgr]
  · simp

set_option maxRecDepth 100000

/-- Claim C7: for every invocation of the SQL Generator, the constructed
instruction text contains the fixed role framing, the literal schema
text, the rendered conversation history, the two fixed worked examples
showing bare SQL output, the instruction to output only the SQL query
with no fencing, and the new question — all placed in the fixed skeleton
of `sql_prompt`. -/
theorem sql_prompt_skeleton (schema : String) (h : List Turn) (q : String) :
    containsStr (sql_prompt schema h q) role_framing ∧
    containsStr (sql_prompt schema h q) schema ∧
    containsStr (sql_prompt schema h q) (renderHistory h) ∧
    containsStr (sql_prompt schema h q) example1 ∧
    containsStr (sql_prompt schema h q) example2 ∧
    containsStr (sql_prompt schema h q) only_sql_instruction ∧
    containsStr (sql_prompt schema h q) q := by
  refine ⟨?_, ?_, ?_, ?_, ?_, ?_, ?_⟩ <;>
    simp only [containsStr, sql_prompt, String.data_append, List.append_assoc]
  · exact infix_append_left _ (by decide)
  · exact infix_append_right _ (infix_append_left _ (List.infix_refl _))
  · exact infix_append_right _ (infix_append_right _ (infix_append_right _
      (infix_append_left _ (List.infix_refl _))))
  · exact infix_append_right _ (infix_append_right _ (infix_append_right _
      (infix_append_right _ (infix_append_left _ (by decide)))))
  · exact infix_append_right _ (infix_append_right _ (infix_append_right _
      (infix_append_right _ (infix_append_left _ (by decide)))))
  · exact infix_append_right _ (infix_append_right _ (infix_append_right _
      (infix_append_right _ (infix_append_left _ (by decide)))))
  · exact infix_append_right _ (infix_append_right _ (infix_append_right _
      (infix_append_right _ (infix_append_right _
        (infix_append_left _ (List.infix_refl _))))))

/-- Witness for `user_turn_precedes_pipeline` on a concrete call. -/
theorem user_turn_precedes_pipeline_witness :
    ¬ pyStrip "hi" = "" ∧ stConnected.db = some dbOk ∧
    ((chat_handler (some "hi") genOk stConnected).2.2 =
       (get_response "hi" dbOk genOk
          (stConnected.chat_history ++ [Turn.mk Role.user "hi"])).2 ∧
     (stConnected.chat_history ++ [Turn.mk Role.user "hi"]).getLast? =
       some (Turn.mk Role.user "hi")) :=
  ⟨by decide, rfl,
   user_turn_precedes_pipeline "hi" genOk stConnected dbOk (by decide) rfl⟩

end ChatMySQL
